import Mathlib

/-!
Shallow embedding of the payrolla-mcp payroll orchestration code
(`src/tools/calculate.ts`, `src/tools/simulate.ts`, `src/types/index.ts`).

Conventions of the embedding:
* JavaScript numbers are modelled as `ℚ` (all arithmetic in the embedded
  code is exact on the inputs the claims touch; no claim depends on IEEE
  rounding).
* TypeScript optional fields (`x?: T`) and JavaScript `undefined` are
  modelled as `Option`.
* The external calculation engine (`PayrollaClient.calculate`) is an
  injected function `Engine`; every embedded operation also returns the
  list of requests it sent to the engine, in order, so that theorems can
  speak about the calls made.
* Fallible code (JavaScript exceptions propagating to the tool boundary)
  is modelled with `Except RunError`.
-/

set_option maxRecDepth 8000

/-- SSI category enum of the payrolla client. -/
inductive SSIType where
  | S4A | S4B | S4C
deriving DecidableEq, Repr

/-- Gross/Net amount interpretation enum of the payrolla client.
Also used for the `"Gross" | "Net"` string unions of the input types. -/
inductive CalculationType where
  | Gross | Net
deriving DecidableEq, Repr

/-- Payment category enum of the payrolla client. -/
inductive PaymentType where
  | RegularPayment | Overtime | SocialAid | ExtraPay
deriving DecidableEq, Repr

/-- Wage period enum (the code only ever uses `Monthly`). -/
inductive PaymentPeriodType where
  | Monthly
deriving DecidableEq, Repr

/-- Period length enum (the code only ever uses `Month`). -/
inductive PeriodLengthType where
  | Month
deriving DecidableEq, Repr

/-- The caller-facing payment-category union
`"RegularPayment" | "Overtime" | "SocialAid" | "ExtraPay" | 1 | 2 | 3 | 4`
of `ExtraPayment.paymentType` / `PayEvent.paymentType` (types/index.ts).
The numeric aliases 1..4 are collapsed onto the named constructors; the
orchestration code never reads this field, so only its presence matters. -/
inductive PaymentCategoryInput where
  | regularPayment | overtime | socialAid | extraPay
deriving DecidableEq, Repr

/-- `ExtraPayment` input record (types/index.ts). -/
structure ExtraPayment where
  name : String
  amount : ℚ
  type : CalculationType
  paymentType : Option PaymentCategoryInput := none
deriving DecidableEq, Repr

/-- `PayEvent` input record (types/index.ts): an extra payment scoped to a
specific (year, month). -/
structure PayEvent where
  month : ℤ
  year : ℤ
  name : String
  amount : ℚ
  type : CalculationType
  paymentType : Option PaymentCategoryInput := none
deriving DecidableEq, Repr

/-- A `{limit, rate}` bracket as used in `CustomParams.incomeTaxLimits` and
`ScenarioConfig.customTaxBrackets`. -/
structure CustomBracket where
  limit : ℚ
  rate : ℚ
deriving DecidableEq, Repr

/-- `CustomParams` override record (types/index.ts).  The TypeScript
interface omits `minWageNet`, but the zod tool schema admits it and
`buildCustomGlobalParams` reads it, so it is carried here as an optional
field (the simulate-path `applyScenario` never sets it). -/
structure CustomParams where
  minWage : Option ℚ := none
  minWageNet : Option ℚ := none
  ssiLowerLimit : Option ℚ := none
  ssiUpperLimit : Option ℚ := none
  stampTaxRatio : Option ℚ := none
  incomeTaxLimits : Option (List CustomBracket) := none
deriving DecidableEq, Repr

/-- The `customGlobalParams` object built by `buildCustomGlobalParams`
(calculate.ts), with the payrolla client's field spellings. -/
structure CustomGlobalParams where
  minWage : Option ℚ
  minWageNet : Option ℚ
  ssi_LowerLimit : Option ℚ
  ssi_UpperLimit : Option ℚ
  stampTaxRatio : Option ℚ
  incomeTaxLimits : Option (List CustomBracket)
deriving DecidableEq, Repr

/-- `calculationParams` sub-object of the wage calculation model. -/
structure CalculationParams where
  calculateMinWageExemption : Bool
  customGlobalParams : Option CustomGlobalParams
deriving DecidableEq, Repr

/-- One entry of the `payments` array sent to the engine (payrolla
`PaymentItem`).  `paymentAmount` and `calculationType` are optional in the
client model; the orchestration code always sets `paymentAmount`. -/
structure PaymentItem where
  paymentAmount : Option ℚ
  paymentName : String
  paymentType : PaymentType
  paymentRef : String
  calculationType : Option CalculationType := none
deriving DecidableEq, Repr

/-- The single-period request sent to the engine (payrolla
`WageCalculationModel`), exactly the fields built in calculate.ts lines
106-121.  Note that the model carries no transferred-SSI-base fields at
all: the code never puts them into the request. -/
structure WageCalculationModel where
  calcDate : String
  wageAmount : ℚ
  cumulativeIncomeTaxBase : ℚ
  cumulativeMinWageIncomeTaxBase : ℚ
  ssiType : SSIType
  wageCalculationType : CalculationType
  wagePeriodType : PaymentPeriodType
  periodCount : ℕ
  periodLengthType : PeriodLengthType
  payments : List PaymentItem
  calculationParams : CalculationParams
deriving DecidableEq, Repr

/-- Per-payroll fiscal figures of the engine response
(`payroll.payrollResult`).  The two transferred bases are optional in the
engine contract. -/
structure PayrollResult where
  totalNet : ℚ
  totalGross : ℚ
  totalIncomeTax : ℚ
  totalIncomeTaxBase : ℚ
  totalMinWageIncomeTaxExemptionBase : ℚ
  totalStampTax : ℚ
  totalSSIWorkerPrem : ℚ
  totalSSIEmployerPrem : ℚ
  transferredSSIBase1 : Option ℚ := none
  transferredSSIBase2 : Option ℚ := none
deriving DecidableEq, Repr

/-- One payroll entry of the engine response. -/
structure Payroll where
  year : ℤ
  month : ℤ
  totalCost : ℚ
  payrollResult : PayrollResult
deriving DecidableEq, Repr

/-- Engine response.  `payrolls = none` models a response lacking the
expected result payload (at runtime, iterating `result.payrolls` then
throws). -/
structure EngineResponse where
  payrolls : Option (List Payroll)
deriving DecidableEq, Repr

/-- The injected external calculation engine. -/
def Engine : Type := WageCalculationModel → EngineResponse

/-- The JavaScript exceptions that can escape the embedded operations to
the tool boundary. -/
inductive RunError where
  /-- the engine response has no `payrolls` array to iterate -/
  | missingPayrolls
  /-- `result.periods[0]` is `undefined` and its fields are read -/
  | emptyPeriods
  /-- `compareScenarios` throws on an empty scenario list -/
  | noScenarios
deriving DecidableEq, Repr

/-- `CalculatePayrollInput` (types/index.ts).  The four trailing state
fields are accepted by the type and the tool schema but, as the theorems
below show, never reach the engine. -/
structure CalculatePayrollInput where
  name : String
  wage : ℚ
  calculationType : CalculationType
  ssiType : Option SSIType := none
  year : ℤ
  month : ℤ
  periodCount : Option ℕ := none
  extraPayments : Option (List ExtraPayment) := none
  customParams : Option CustomParams := none
  cumulativeIncomeTaxBase : Option ℚ := none
  cumulativeMinWageIncomeTaxBase : Option ℚ := none
  transferredSSIBase1 : Option ℚ := none
  transferredSSIBase2 : Option ℚ := none
deriving DecidableEq, Repr

/-- `PeriodResult` (types/index.ts) declares the four cumulative fields as
required numbers, but `calculatePayroll` (the only producer) never sets
them, so at runtime they are `undefined`; they are therefore modelled as
`Option ℚ`, with `calculatePayroll` producing `none`. -/
structure PeriodResult where
  year : ℤ
  month : ℤ
  grossWage : ℚ
  netWage : ℚ
  employerCost : ℚ
  incomeTax : ℚ
  stampTax : ℚ
  employeeSSI : ℚ
  employerSSI : ℚ
  cumulativeIncomeTaxBase : Option ℚ
  cumulativeMinWageIncomeTaxBase : Option ℚ
  transferredSSIBase1 : Option ℚ
  transferredSSIBase2 : Option ℚ
deriving DecidableEq, Repr

/-- `CalculatePayrollResult` (types/index.ts). -/
structure CalculatePayrollResult where
  employee : String
  totalCost : ℚ
  totalNet : ℚ
  totalGross : ℚ
  periods : List PeriodResult
deriving DecidableEq, Repr

/-- `mapSSIType` (calculate.ts): string to enum, defaulting to `S4A`. -/
def mapSSIType (ssiType : Option SSIType) : SSIType :=
  match ssiType with
  | some SSIType.S4B => SSIType.S4B
  | some SSIType.S4C => SSIType.S4C
  | _ => SSIType.S4A

/-- `mapCalculationType` (calculate.ts): `'Gross'` maps to `Gross`,
anything else to `Net`. -/
def mapCalculationType (calcType : CalculationType) : CalculationType :=
  match calcType with
  | CalculationType.Gross => CalculationType.Gross
  | _ => CalculationType.Net

/-- `buildCustomGlobalParams` (calculate.ts): field-by-field copy into the
client's spelling; `minWageNet` is read from the (possibly absent)
`CustomParams.minWageNet`. -/
def buildCustomGlobalParams (customParams : Option CustomParams) :
    Option CustomGlobalParams :=
  match customParams with
  | none => none
  | some cp =>
      some { minWage := cp.minWage
             minWageNet := cp.minWageNet
             ssi_LowerLimit := cp.ssiLowerLimit
             ssi_UpperLimit := cp.ssiUpperLimit
             stampTaxRatio := cp.stampTaxRatio
             incomeTaxLimits := cp.incomeTaxLimits }

/-- `String(month).padStart(2, '0')` for the values `toString` can
produce. -/
def padStart2 (s : String) : String :=
  if s.length = 0 then "00" else if s.length = 1 then "0" ++ s else s

/-- The `calcDate` template string `${year}-${String(month).padStart(2,
'0')}-01` (calculate.ts line 107). -/
def mkCalcDate (year month : ℤ) : String :=
  toString year ++ "-" ++ padStart2 (toString month) ++ "-01"

/-- The fixed base payment line (calculate.ts lines 82-89): category
`RegularPayment`, ref `"1"`, name `"Maas"`, amount `31`. -/
def basePaymentItem : PaymentItem :=
  { paymentAmount := some 31
    paymentName := "Maas"
    paymentType := PaymentType.RegularPayment
    paymentRef := "1"
    calculationType := none }

/-- The push-loop over extra payments (calculate.ts lines 93-102),
carrying the 0-based loop index `i`: each line gets category `ExtraPay`,
ref `extra_<i+2>`, and amount interpretation `Net` exactly when the
payment's declared type is `Net`. -/
def buildExtraItems : List ExtraPayment → ℕ → List PaymentItem
  | [], _ => []
  | extra :: rest, i =>
      { paymentAmount := some extra.amount
        paymentName := extra.name
        paymentType := PaymentType.ExtraPay
        paymentRef := "extra_" ++ toString (i + 2)
        calculationType :=
          some (if extra.type = CalculationType.Net then CalculationType.Net
                else CalculationType.Gross) } :: buildExtraItems rest (i + 1)

/-- The `payments` array construction (calculate.ts lines 82-103): the
base line, followed by the extra-payment lines when the (optional) list is
non-empty. -/
def buildPayments (extraPayments : Option (List ExtraPayment)) :
    List PaymentItem :=
  match extraPayments with
  | some eps =>
      if eps.length > 0 then basePaymentItem :: buildExtraItems eps 0
      else [basePaymentItem]
  | none => [basePaymentItem]

/-- The `WageCalculationModel` built by `calculatePayroll` (calculate.ts
lines 106-121).  `cumulativeIncomeTaxBase` and
`cumulativeMinWageIncomeTaxBase` are the literal constants `0`; the
caller-supplied state fields of the input are not read. -/
def buildModel (input : CalculatePayrollInput) : WageCalculationModel :=
  { calcDate := mkCalcDate input.year input.month
    wageAmount := input.wage
    cumulativeIncomeTaxBase := 0
    cumulativeMinWageIncomeTaxBase := 0
    ssiType := mapSSIType input.ssiType
    wageCalculationType := mapCalculationType input.calculationType
    wagePeriodType := PaymentPeriodType.Monthly
    periodCount := input.periodCount.getD 1
    periodLengthType := PeriodLengthType.Month
    payments := buildPayments input.extraPayments
    calculationParams :=
      { calculateMinWageExemption := true
        customGlobalParams := buildCustomGlobalParams input.customParams } }

/-- The body of the result-transform loop (calculate.ts lines 138-148):
one `PeriodResult` per engine payroll.  The object literal in the source
sets none of the four cumulative fields. -/
def payrollToPeriod (payroll : Payroll) : PeriodResult :=
  { year := payroll.year
    month := payroll.month
    grossWage := payroll.payrollResult.totalGross
    netWage := payroll.payrollResult.totalNet
    employerCost := payroll.totalCost
    incomeTax := payroll.payrollResult.totalIncomeTax
    stampTax := payroll.payrollResult.totalStampTax
    employeeSSI := payroll.payrollResult.totalSSIWorkerPrem
    employerSSI := payroll.payrollResult.totalSSIEmployerPrem
    cumulativeIncomeTaxBase := none
    cumulativeMinWageIncomeTaxBase := none
    transferredSSIBase1 := none
    transferredSSIBase2 := none }

/-- `calculatePayroll` (calculate.ts): builds the model, makes exactly one
engine call, and folds the returned payrolls into totals and the period
list.  The second component is the list of requests sent to the engine.
The source's single accumulation loop is rendered as the three sums and
the mapped period list. -/
def calculatePayroll (e : Engine) (input : CalculatePayrollInput) :
    Except RunError CalculatePayrollResult × List WageCalculationModel :=
  let model := buildModel input
  match (e model).payrolls with
  | none => (Except.error RunError.missingPayrolls, [model])
  | some payrolls =>
      (Except.ok
        { employee := input.name
          totalCost := (payrolls.map (fun p => p.totalCost)).sum
          totalNet := (payrolls.map (fun p => p.payrollResult.totalNet)).sum
          totalGross := (payrolls.map (fun p => p.payrollResult.totalGross)).sum
          periods := payrolls.map payrollToPeriod },
       [model])

/-- A tax bracket of the defaults table (types/index.ts `TaxBracket`). -/
structure TaxBracket where
  limit : ℚ
  rate : ℚ
  description : String
deriving DecidableEq, Repr

/-- `DefaultParamsResult` (types/index.ts). -/
structure DefaultParamsResult where
  year : ℤ
  minWage : ℚ
  minWageNet : ℚ
  ssiLowerLimit : ℚ
  ssiUpperLimit : ℚ
  stampTaxRatio : ℚ
  incomeTaxBrackets : List TaxBracket
deriving DecidableEq, Repr

/-- `Number.MAX_SAFE_INTEGER`, the "no upper bound" sentinel of the last
tax bracket. -/
def maxSafeInteger : ℚ := 9007199254740991

/-- `DEFAULT_PARAMS_2025` (types/index.ts lines 286-312). -/
def DEFAULT_PARAMS_2025 : DefaultParamsResult :=
  { year := 2025
    minWage := 26005.5
    minWageNet := 22104.67
    ssiLowerLimit := 26005.5
    ssiUpperLimit := 195041.4
    stampTaxRatio := 0.00759
    incomeTaxBrackets :=
      [ { limit := 158000, rate := 0.15,
          description := "158,000 TL'ye kadar %15" },
        { limit := 330000, rate := 0.2,
          description := "158,000-330,000 TL arasi %20" },
        { limit := 1200000, rate := 0.27,
          description := "330,000-1,200,000 TL arasi %27" },
        { limit := 4300000, rate := 0.35,
          description := "1,200,000-4,300,000 TL arasi %35" },
        { limit := maxSafeInteger, rate := 0.4,
          description := "4,300,000 TL'den fazlasi %40" } ] }

/-- `GetDefaultParamsInput` (types/index.ts). -/
structure GetDefaultParamsInput where
  year : ℤ
deriving DecidableEq, Repr

/-- `getDefaultParams` (simulate.ts): the 2025 table, relabeled with the
requested year when it differs. -/
def getDefaultParams (input : GetDefaultParamsInput) : DefaultParamsResult :=
  if input.year = 2025 then DEFAULT_PARAMS_2025
  else { DEFAULT_PARAMS_2025 with year := input.year }

/-- `ScenarioConfig` (types/index.ts). -/
structure ScenarioConfig where
  name : Option String := none
  salaryRaisePercent : Option ℚ := none
  minWage : Option ℚ := none
  taxLimitIncreasePercent : Option ℚ := none
  ssiLimitIncreasePercent : Option ℚ := none
  customTaxBrackets : Option (List CustomBracket) := none
deriving DecidableEq, Repr

/-- `Math.round`: the floor of `x + 1/2`, i.e. round half toward positive
infinity, computed on ℚ. -/
def jsRound (x : ℚ) : ℤ := Rat.floor (x + 1/2)

/-- `applyScenario` (simulate.ts lines 265-298): sparse override object;
custom brackets take precedence over the percent increase; a bracket at
the `Number.MAX_SAFE_INTEGER` sentinel keeps its limit. -/
def applyScenario (defaults : DefaultParamsResult)
    (scenario : ScenarioConfig) : CustomParams :=
  let result : CustomParams := {}
  let result :=
    match scenario.minWage with
    | some w => { result with minWage := some w }
    | none => result
  let result :=
    match scenario.ssiLimitIncreasePercent with
    | some pct =>
        let multiplier := 1 + pct / 100
        { result with
            ssiLowerLimit := some (defaults.ssiLowerLimit * multiplier)
            ssiUpperLimit := some (defaults.ssiUpperLimit * multiplier) }
    | none => result
  match scenario.customTaxBrackets with
  | some brackets => { result with incomeTaxLimits := some brackets }
  | none =>
      match scenario.taxLimitIncreasePercent with
      | some pct =>
          let multiplier := 1 + pct / 100
          { result with
              incomeTaxLimits :=
                some (defaults.incomeTaxBrackets.map (fun bracket =>
                  { limit :=
                      if bracket.limit = maxSafeInteger then bracket.limit
                      else ((jsRound (bracket.limit * multiplier) : ℤ) : ℚ)
                    rate := bracket.rate })) }
      | none => result

/-- `applyRaise` (simulate.ts): multiply by `(1 + pct/100)` unless the
raise is absent or zero. -/
def applyRaise (wage : ℚ) (raisePercent : Option ℚ) : ℚ :=
  match raisePercent with
  | none => wage
  | some pct => if pct = 0 then wage else wage * (1 + pct / 100)

/-- JavaScript `x || d` on an optional number: `undefined`, and the falsy
value `0`, both fall back to the default. -/
def jsOrNum (x : Option ℚ) (d : ℚ) : ℚ :=
  match x with
  | some v => if v = 0 then d else v
  | none => d

/-- The (year, month) pair produced by
`new Date(year, monthIndex, 1)` / `getFullYear()` / `getMonth() + 1`
(simulate.ts lines 344-346): month overflow is normalized into year
rollover, and a year argument in 0..99 is first remapped to `1900 + year`
per the JavaScript `Date` constructor. -/
def jsDateYearMonth (year : ℤ) (monthIndex : ℕ) : ℤ × ℤ :=
  let base := if 0 ≤ year ∧ year ≤ 99 then year + 1900 else year
  (base + (monthIndex / 12 : ℕ), ((monthIndex % 12 : ℕ) : ℤ) + 1)

/-- Employee record of the simulate/compare inputs (types/index.ts). -/
structure SimEmployee where
  name : String
  wage : ℚ
  calculationType : CalculationType
  ssiType : Option SSIType := none
  payEvents : Option (List PayEvent) := none
deriving DecidableEq, Repr

/-- `SimulateBudgetInput` (types/index.ts). -/
structure SimulateBudgetInput where
  employees : List SimEmployee
  year : ℤ
  periodCount : ℕ
  scenario : ScenarioConfig
deriving DecidableEq, Repr

/-- `SimulationEmployeeResult` (types/index.ts). -/
structure SimulationEmployeeResult where
  name : String
  originalWage : ℚ
  adjustedWage : ℚ
  yearlyCost : ℚ
  yearlyNet : ℚ
  yearlyGross : ℚ
  periods : List PeriodResult
deriving DecidableEq, Repr

/-- `scenarioApplied` sub-object of the simulation result. -/
structure ScenarioApplied where
  salaryRaisePercent : ℚ
  effectiveMinWage : ℚ
  effectiveTaxBrackets : List CustomBracket
deriving DecidableEq, Repr

/-- `summary` sub-object of the simulation result. -/
structure SimulationSummary where
  totalYearlyCost : ℚ
  totalYearlyNet : ℚ
  totalYearlyGross : ℚ
  costPerEmployee : ℚ
deriving DecidableEq, Repr

/-- `SimulateBudgetResult` (types/index.ts). -/
structure SimulateBudgetResult where
  scenarioApplied : ScenarioApplied
  summary : SimulationSummary
  employees : List SimulationEmployeeResult
deriving DecidableEq, Repr

/-- The pay events of `emp` whose (year, month) equal the period's
computed calendar date (simulate.ts lines 349-351). -/
def periodPayEvents (emp : SimEmployee) (calcYear calcMonth : ℤ) :
    List PayEvent :=
  (emp.payEvents.getD []).filter
    (fun pe => pe.year == calcYear && pe.month == calcMonth)

/-- The PayEvent-to-ExtraPayment conversion (simulate.ts lines 354-359). -/
def payEventToExtra (pe : PayEvent) : ExtraPayment :=
  { name := pe.name
    amount := pe.amount
    type := pe.type
    paymentType := pe.paymentType }

/-- The `calculatePayroll` input built for one period of the simulation
loop (simulate.ts lines 361-375), parametrized by the four carried state
values. -/
def simPeriodInput (inp : SimulateBudgetInput) (customParams : CustomParams)
    (adjustedWage : ℚ) (emp : SimEmployee) (i : ℕ)
    (cumIncome cumMinWage ssi1 ssi2 : Option ℚ) : CalculatePayrollInput :=
  let calcYear := (jsDateYearMonth inp.year i).1
  let calcMonth := (jsDateYearMonth inp.year i).2
  let extraPayments :=
    (periodPayEvents emp calcYear calcMonth).map payEventToExtra
  { name := emp.name
    wage := adjustedWage
    calculationType := emp.calculationType
    ssiType := emp.ssiType
    year := calcYear
    month := calcMonth
    periodCount := some 1
    extraPayments :=
      if extraPayments.length > 0 then some extraPayments else none
    customParams := some customParams
    cumulativeIncomeTaxBase := cumIncome
    cumulativeMinWageIncomeTaxBase := cumMinWage
    transferredSSIBase1 := ssi1
    transferredSSIBase2 := ssi2 }

/-- The engine request for period `i` of one employee's simulation run.
The carried state fields do not influence the request (`buildModel`
ignores them), so the canonical request uses `none` for all four. -/
def simReq (inp : SimulateBudgetInput) (customParams : CustomParams)
    (adjustedWage : ℚ) (emp : SimEmployee) (i : ℕ) : WageCalculationModel :=
  buildModel (simPeriodInput inp customParams adjustedWage emp i
    none none none none)

/-- The mutable loop state of one employee's simulation run (simulate.ts
lines 332-340): the four carried values — JavaScript variables that may
hold `undefined` — plus the employee accumulators. -/
structure SimAcc where
  cumulativeIncomeTaxBase : Option ℚ
  cumulativeMinWageIncomeTaxBase : Option ℚ
  transferredSSIBase1 : Option ℚ
  transferredSSIBase2 : Option ℚ
  empTotalCost : ℚ
  empTotalNet : ℚ
  empTotalGross : ℚ
  empPeriods : List PeriodResult
deriving DecidableEq, Repr

/-- The initial loop state: the four carried values start at `0`. -/
def simAccInit : SimAcc :=
  { cumulativeIncomeTaxBase := some 0
    cumulativeMinWageIncomeTaxBase := some 0
    transferredSSIBase1 := some 0
    transferredSSIBase2 := some 0
    empTotalCost := 0
    empTotalNet := 0
    empTotalGross := 0
    empPeriods := [] }

/-- One iteration of the per-period loop (simulate.ts lines 343-390):
build the period input, call `calculatePayroll`, accumulate, and carry
forward `result.periods[0]`'s cumulative fields (which `calculatePayroll`
never sets).  An empty `result.periods` makes `result.periods[0]`
`undefined`, and reading its fields throws. -/
def simEmpStep (e : Engine) (inp : SimulateBudgetInput)
    (customParams : CustomParams) (adjustedWage : ℚ) (emp : SimEmployee)
    (i : ℕ) (acc : SimAcc) :
    Except RunError SimAcc × List WageCalculationModel :=
  let pinput := simPeriodInput inp customParams adjustedWage emp i
    acc.cumulativeIncomeTaxBase acc.cumulativeMinWageIncomeTaxBase
    acc.transferredSSIBase1 acc.transferredSSIBase2
  match calculatePayroll e pinput with
  | (Except.error err, trace) => (Except.error err, trace)
  | (Except.ok result, trace) =>
      match result.periods with
      | [] => (Except.error RunError.emptyPeriods, trace)
      | lastPeriod :: _ =>
          (Except.ok
            { cumulativeIncomeTaxBase := lastPeriod.cumulativeIncomeTaxBase
              cumulativeMinWageIncomeTaxBase :=
                lastPeriod.cumulativeMinWageIncomeTaxBase
              transferredSSIBase1 := lastPeriod.transferredSSIBase1
              transferredSSIBase2 := lastPeriod.transferredSSIBase2
              empTotalCost := acc.empTotalCost + result.totalCost
              empTotalNet := acc.empTotalNet + result.totalNet
              empTotalGross := acc.empTotalGross + result.totalGross
              empPeriods := acc.empPeriods ++ [lastPeriod] },
           trace)

/-- The per-period loop, running periods `i, i+1, ...` while `n` periods
remain; request traces are concatenated in order, and an error aborts the
loop immediately. -/
def simEmpRun (e : Engine) (inp : SimulateBudgetInput)
    (customParams : CustomParams) (adjustedWage : ℚ) (emp : SimEmployee) :
    ℕ → ℕ → SimAcc → Except RunError SimAcc × List WageCalculationModel
  | _, 0, acc => (Except.ok acc, [])
  | i, n + 1, acc =>
      match simEmpStep e inp customParams adjustedWage emp i acc with
      | (Except.error err, trace) => (Except.error err, trace)
      | (Except.ok acc', trace) =>
          match simEmpRun e inp customParams adjustedWage emp (i + 1) n acc' with
          | (res, trace') => (res, trace ++ trace')

/-- One employee's simulation run (simulate.ts lines 328-400): apply the
raise, run all periods from index 0, and package the employee result. -/
def simEmployee (e : Engine) (inp : SimulateBudgetInput)
    (customParams : CustomParams) (emp : SimEmployee) :
    Except RunError SimulationEmployeeResult × List WageCalculationModel :=
  let adjustedWage := applyRaise emp.wage inp.scenario.salaryRaisePercent
  match simEmpRun e inp customParams adjustedWage emp 0 inp.periodCount
      simAccInit with
  | (Except.error err, trace) => (Except.error err, trace)
  | (Except.ok acc, trace) =>
      (Except.ok
        { name := emp.name
          originalWage := emp.wage
          adjustedWage := adjustedWage
          yearlyCost := acc.empTotalCost
          yearlyNet := acc.empTotalNet
          yearlyGross := acc.empTotalGross
          periods := acc.empPeriods },
       trace)

/-- The sequential loop over employees, threading the three yearly
totals. -/
def simEmployeesLoop (e : Engine) (inp : SimulateBudgetInput)
    (customParams : CustomParams) :
    List SimEmployee → ℚ × ℚ × ℚ →
    Except RunError ((ℚ × ℚ × ℚ) × List SimulationEmployeeResult) ×
      List WageCalculationModel
  | [], totals => (Except.ok (totals, []), [])
  | emp :: rest, (tc, tn, tg) =>
      match simEmployee e inp customParams emp with
      | (Except.error err, trace) => (Except.error err, trace)
      | (Except.ok er, trace) =>
          match simEmployeesLoop e inp customParams rest
              (tc + er.yearlyCost, tn + er.yearlyNet, tg + er.yearlyGross) with
          | (Except.error err, trace') => (Except.error err, trace ++ trace')
          | (Except.ok (totals', ers), trace') =>
              (Except.ok (totals', er :: ers), trace ++ trace')

/-- `simulateBudget` (simulate.ts lines 313-429): resolve defaults, apply
the scenario, run every employee, and assemble the result. -/
def simulateBudget (e : Engine) (inp : SimulateBudgetInput) :
    Except RunError SimulateBudgetResult × List WageCalculationModel :=
  let defaults := getDefaultParams { year := inp.year }
  let customParams := applyScenario defaults inp.scenario
  match simEmployeesLoop e inp customParams inp.employees (0, 0, 0) with
  | (Except.error err, trace) => (Except.error err, trace)
  | (Except.ok ((tc, tn, tg), employeeResults), trace) =>
      let effectiveTaxBrackets :=
        match customParams.incomeTaxLimits with
        | some limits => limits
        | none =>
            defaults.incomeTaxBrackets.map (fun b =>
              { limit := b.limit, rate := b.rate })
      (Except.ok
        { scenarioApplied :=
            { salaryRaisePercent := jsOrNum inp.scenario.salaryRaisePercent 0
              effectiveMinWage := jsOrNum customParams.minWage defaults.minWage
              effectiveTaxBrackets := effectiveTaxBrackets }
          summary :=
            { totalYearlyCost := tc
              totalYearlyNet := tn
              totalYearlyGross := tg
              -- JavaScript: dividing by an empty employee list yields NaN;
              -- ℚ division by zero yields 0 here.  No claim reads this field.
              costPerEmployee := tc / (inp.employees.length : ℚ) }
          employees := employeeResults },
       trace)

/-- `CompareScenariosInput` (types/index.ts). -/
structure CompareScenariosInput where
  employees : List SimEmployee
  year : ℤ
  periodCount : ℕ
  scenarios : List ScenarioConfig
deriving DecidableEq, Repr

/-- One `{name, totalCost}` entry of the per-scenario results list. -/
structure ScenarioRun where
  name : String
  totalCost : ℚ
deriving DecidableEq, Repr

/-- `ScenarioComparison` (types/index.ts). -/
structure ScenarioComparison where
  scenarioName : String
  totalCost : ℚ
  costDifference : ℚ
  percentChange : ℚ
deriving DecidableEq, Repr

/-- `CompareScenariosResult` (types/index.ts). -/
structure CompareScenariosResult where
  baselineCost : ℚ
  comparison : List ScenarioComparison
  cheapestScenario : String
  mostExpensiveScenario : String
deriving DecidableEq, Repr

/-- `scenario.name || `Scenario ${results.length + 1}``: at push time
`results.length` equals the scenario's 0-based position; the empty string
is falsy and also falls back to the auto-name. -/
def scenarioRunName (s : ScenarioConfig) (idx : ℕ) : String :=
  match s.name with
  | some n => if n = "" then "Scenario " ++ toString (idx + 1) else n
  | none => "Scenario " ++ toString (idx + 1)

/-- The per-scenario loop of `compareScenarios` (simulate.ts lines
450-462): one full `simulateBudget` run per scenario, in order; any error
aborts the whole comparison. -/
def compareLoop (e : Engine) (employees : List SimEmployee) (year : ℤ)
    (periodCount : ℕ) :
    List ScenarioConfig → ℕ →
    Except RunError (List ScenarioRun) × List WageCalculationModel
  | [], _ => (Except.ok [], [])
  | scenario :: rest, idx =>
      match simulateBudget e
          { employees := employees, year := year,
            periodCount := periodCount, scenario := scenario } with
      | (Except.error err, trace) => (Except.error err, trace)
      | (Except.ok result, trace) =>
          match compareLoop e employees year periodCount rest (idx + 1) with
          | (Except.error err, trace') => (Except.error err, trace ++ trace')
          | (Except.ok runs, trace') =>
              (Except.ok
                ({ name := scenarioRunName scenario idx
                   totalCost := result.summary.totalYearlyCost } :: runs),
               trace ++ trace')

/-- Insertion step of the stable ascending sort by total cost: an element
is placed before the first strictly more expensive one, hence after all
earlier elements of equal cost. -/
def insertByCost (x : ScenarioRun) : List ScenarioRun → List ScenarioRun
  | [] => [x]
  | y :: ys =>
      if y.totalCost < x.totalCost then y :: insertByCost x ys
      else x :: y :: ys

/-- `[...results].sort((a, b) => a.totalCost - b.totalCost)`: a stable
ascending sort (stable sorts agree, so insertion sort models the
JavaScript sort extensionally). -/
def sortByCost : List ScenarioRun → List ScenarioRun
  | [] => []
  | x :: xs => insertByCost x (sortByCost xs)

/-- `compareScenarios` (simulate.ts lines 434-489): requires at least one
scenario, runs each scenario, reports deltas against the first scenario's
cost, and names the cheapest and most expensive. -/
def compareScenarios (e : Engine) (input : CompareScenariosInput) :
    Except RunError CompareScenariosResult × List WageCalculationModel :=
  if input.scenarios.length = 0 then
    (Except.error RunError.noScenarios, [])
  else
    match compareLoop e input.employees input.year input.periodCount
        input.scenarios 0 with
    | (Except.error err, trace) => (Except.error err, trace)
    | (Except.ok results, trace) =>
        match results with
        | [] =>
            -- unreachable: `compareLoop` returns one entry per scenario
            (Except.error RunError.noScenarios, trace)
        | r0 :: _ =>
            let baselineCost := r0.totalCost
            let comparison := results.map (fun r =>
              { scenarioName := r.name
                totalCost := r.totalCost
                costDifference := r.totalCost - baselineCost
                percentChange :=
                  if baselineCost > 0 then
                    (r.totalCost - baselineCost) / baselineCost * 100
                  else 0 })
            let sorted := sortByCost results
            (Except.ok
              { baselineCost := baselineCost
                comparison := comparison
                cheapestScenario := (sorted.headD r0).name
                mostExpensiveScenario := (sorted.getLastD r0).name },
             trace)

/-! ### Closed forms for a total one-payroll-per-call engine -/

/-- The scenario-derived override object `simulateBudget` computes. -/
def simCustomParams (inp : SimulateBudgetInput) : CustomParams :=
  applyScenario (getDefaultParams { year := inp.year }) inp.scenario

/-- The raised wage `simulateBudget` uses for one employee. -/
def simAdjustedWage (inp : SimulateBudgetInput) (emp : SimEmployee) : ℚ :=
  applyRaise emp.wage inp.scenario.salaryRaisePercent

/-- Denotation of one employee's run against an engine that answers every
request `m` with the single payroll `f m`. -/
def simEmpPure (f : WageCalculationModel → Payroll) (inp : SimulateBudgetInput)
    (cp : CustomParams) (emp : SimEmployee) : SimulationEmployeeResult :=
  let aw := simAdjustedWage inp emp
  let pays := (List.range inp.periodCount).map
    (fun k => f (simReq inp cp aw emp k))
  { name := emp.name
    originalWage := emp.wage
    adjustedWage := aw
    yearlyCost := (pays.map (fun p => p.totalCost)).sum
    yearlyNet := (pays.map (fun p => p.payrollResult.totalNet)).sum
    yearlyGross := (pays.map (fun p => p.payrollResult.totalGross)).sum
    periods := pays.map payrollToPeriod }

/-- The full request sequence of a successful `simulateBudget` run: per
employee in input order, one request per period index. -/
def simBudgetTrace (inp : SimulateBudgetInput) : List WageCalculationModel :=
  inp.employees.flatMap (fun emp =>
    (List.range inp.periodCount).map
      (simReq inp (simCustomParams inp) (simAdjustedWage inp emp) emp))



/-! ### Concrete engines and inputs used by witnesses and counterexamples -/

/-- Modelled from the spec: ordinary calendar month addition on day-1
dates — adding `k` months to `(year, month)`, with month overflow
normalized into year rollover.  This is the spec's statement of the date
arithmetic, used as the comparison point for `jsDateYearMonth`. -/
def addMonths (year month : ℤ) (k : ℕ) : ℤ × ℤ :=
  (year + (month - 1 + k) / 12, (month - 1 + k) % 12 + 1)

/-- An all-zero engine fiscal result, for concrete test engines. -/
def zeroPayrollResult : PayrollResult :=
  { totalNet := 0, totalGross := 0, totalIncomeTax := 0,
    totalIncomeTaxBase := 0, totalMinWageIncomeTaxExemptionBase := 0,
    totalStampTax := 0, totalSSIWorkerPrem := 0, totalSSIEmployerPrem := 0 }

/-- A payroll entry with the given date and cost and zero fiscal figures. -/
def mkPayroll (year month : ℤ) (cost : ℚ) : Payroll :=
  { year := year, month := month, totalCost := cost,
    payrollResult := zeroPayrollResult }

/-- A fixed single payroll used by total test engines. -/
def onePayroll : Payroll := mkPayroll 2025 1 0

/-- A total engine answering every request with the same single payroll. -/
def oneEngine : Engine := fun _ => { payrolls := some [onePayroll] }

/-- The plain test employee shared by the concrete runs. -/
def empA : SimEmployee :=
  { name := "A", wage := 100, calculationType := CalculationType.Gross }

/-- A two-month `calculate_payroll` input. -/
def claim2CexInput : CalculatePayrollInput :=
  { name := "A", wage := 100, calculationType := CalculationType.Gross,
    year := 2025, month := 1, periodCount := some 2 }

/-- A one-employee three-month simulation input with no scenario deltas. -/
def claim2WitnessInput : SimulateBudgetInput :=
  { employees := [empA], year := 2025, periodCount := 3, scenario := {} }

/-- The per-request payroll of the echoing witness engine for C4: one
payroll whose date is the date carried by the request. -/
def claim4WitnessF : WageCalculationModel → Payroll := fun m =>
  if m.calcDate = "2025-01-01" then mkPayroll 2025 1 0 else mkPayroll 2025 2 0

/-- Engine echoing the request date, for the two-month witness run. -/
def claim4WitnessEngine : Engine := fun m =>
  { payrolls := some [claim4WitnessF m] }

/-- One employee, two months of 2025. -/
def claim4WitnessInput : SimulateBudgetInput :=
  { employees := [empA], year := 2025, periodCount := 1 + 1, scenario := {} }

/-- A run starting in year 50: JavaScript `Date` remaps it to 1950. -/
def claim4CexInput : SimulateBudgetInput :=
  { employees := [empA], year := 50, periodCount := 1, scenario := {} }

/-- The faithful echo engine for the year-50 run: the single request of
that run carries `calcDate = "1950-01-01"`, so the echoed date is 1950. -/
def claim4CexEngine : Engine := fun _ =>
  { payrolls := some [mkPayroll 1950 1 0] }

/-- A January 2025 pay event. -/
def janBonusA : PayEvent :=
  { month := 1, year := 2025, name := "JanBonusA", amount := 500,
    type := CalculationType.Gross }

/-- A second January 2025 pay event. -/
def janBonusB : PayEvent :=
  { month := 1, year := 2025, name := "JanBonusB", amount := 300,
    type := CalculationType.Net }

/-- A February 2025 pay event. -/
def febBonus : PayEvent :=
  { month := 2, year := 2025, name := "FebBonus", amount := 700,
    type := CalculationType.Gross }

/-- The employee with the three pay events above. -/
def empWithEvents : SimEmployee :=
  { empA with payEvents := some [janBonusA, janBonusB, febBonus] }

/-- Two months of 2025 over the pay-event employee. -/
def claim5WitnessInput : SimulateBudgetInput :=
  { employees := [empWithEvents], year := 2025, periodCount := 2,
    scenario := {} }

/-- An engine that answers the February 2025 request without the expected
payload and every other request with one payroll. -/
def claim8WitnessEngine : Engine := fun m =>
  if m.calcDate = "2025-02-01" then { payrolls := none }
  else { payrolls := some [onePayroll] }

/-- One employee, three months: the engine failure hits period index 1. -/
def claim8WitnessInput : SimulateBudgetInput :=
  { employees := [empA], year := 2025, periodCount := 3, scenario := {} }

/-- An engine whose reported employer cost is the request wage minus 300,
so that total costs of a run can be negative. -/
def claim7CexEngine : Engine := fun m =>
  { payrolls := some [mkPayroll 2025 1 (m.wageAmount - 300)] }

/-- Two scenarios over one 100-wage employee and one month: the baseline
scenario yields total cost -200, the 100-percent-raise scenario -100. -/
def claim7CexInput : CompareScenariosInput :=
  { employees := [empA], year := 2025, periodCount := 1,
    scenarios := [{ name := some "base" },
                  { name := some "raise", salaryRaisePercent := some 100 }] }

/-- An engine that never answers with a payload (no request is made in the
zero-employee witness run). -/
def noneEngine : Engine := fun _ => { payrolls := none }

/-- A zero-employee, one-scenario comparison: the baseline cost is 0. -/
def claim7WitnessInput : CompareScenariosInput :=
  { employees := [], year := 2025, periodCount := 12,
    scenarios := [{ name := some "A" }] }

/-- The comparison result of the zero-employee witness run. -/
def claim7WitnessResult : CompareScenariosResult :=
  { baselineCost := 0,
    comparison := [{ scenarioName := "A", totalCost := 0,
                     costDifference := 0, percentChange := 0 }],
    cheapestScenario := "A", mostExpensiveScenario := "A" }

/-- An engine reporting income-tax base 1000 on every call. -/
def claim1Engine : Engine := fun _ =>
  { payrolls := some
      [{ year := 2025, month := 1, totalCost := 50,
         payrollResult := { zeroPayrollResult with
           totalIncomeTaxBase := 1000 } }] }

/-- One employee over two months, for the state-threading check. -/
def claim1Input : SimulateBudgetInput :=
  { employees := [empA], year := 2025, periodCount := 2, scenario := {} }

/-! ### Basic lemmas about the request builder -/

/-- `calculatePayroll` sends exactly one engine request, namely the model
it builds. -/
theorem calculatePayroll_trace (e : Engine) (input : CalculatePayrollInput) :
    (calculatePayroll e input).2 = [buildModel input] := by
  unfold calculatePayroll
  cases h : (e (buildModel input)).payrolls <;> simp [h]

/-- The model built for a period of the simulation loop does not depend on
the four carried state values. -/
theorem buildModel_simPeriodInput (inp : SimulateBudgetInput)
    (cp : CustomParams) (aw : ℚ) (emp : SimEmployee) (i : ℕ)
    (a b c d : Option ℚ) :
    buildModel (simPeriodInput inp cp aw emp i a b c d) =
      simReq inp cp aw emp i := rfl

theorem buildExtraItems_length (l : List ExtraPayment) (i : ℕ) :
    (buildExtraItems l i).length = l.length := by
  induction l generalizing i with
  | nil => rfl
  | cons x xs ih => simp [buildExtraItems, ih]

theorem buildExtraItems_get? (l : List ExtraPayment) (j i : ℕ) :
    (buildExtraItems l i).get? j = (l.get? j).map (fun ex =>
      { paymentAmount := some ex.amount
        paymentName := ex.name
        paymentType := PaymentType.ExtraPay
        paymentRef := "extra_" ++ toString (i + j + 2)
        calculationType :=
          some (if ex.type = CalculationType.Net then CalculationType.Net
                else CalculationType.Gross) }) := by
  induction l generalizing j i with
  | nil => simp [buildExtraItems]
  | cons x xs ih =>
      cases j with
      | zero => rfl
      | succ j' =>
          have harg : i + 1 + j' + 2 = i + (j' + 1) + 2 := by omega
          simp only [buildExtraItems, List.get?]
          rw [ih j' (i + 1), harg]

/-! ### Claim theorems that need no engine machinery -/

/-- C9: the `WageCalculationModel` sent to the engine has both cumulative
bases hard-coded to `0` and (by the shape of `WageCalculationModel`) no
transferred-SSI-base fields; the request is identical for any two inputs
differing only in the four caller-supplied state fields, and
`calculatePayroll` sends exactly that request. -/
theorem claim9_state_ignored (e : Engine) (input : CalculatePayrollInput)
    (c1 c2 t1 t2 : Option ℚ) :
    buildModel { input with
        cumulativeIncomeTaxBase := c1
        cumulativeMinWageIncomeTaxBase := c2
        transferredSSIBase1 := t1
        transferredSSIBase2 := t2 } = buildModel input ∧
    (buildModel input).cumulativeIncomeTaxBase = 0 ∧
    (buildModel input).cumulativeMinWageIncomeTaxBase = 0 ∧
    (calculatePayroll e input).2 = [buildModel input] :=
  ⟨rfl, rfl, rfl, calculatePayroll_trace e input⟩

/-- C10: every payment line after the base line — i.e. every line built
from an extra payment — carries category `ExtraPay`, whatever payment
category the caller declared on the extra payment; and the `payments`
array of the engine request is exactly `buildPayments` of the input's
extra payments. -/
theorem claim10_extra_lines_extraPay :
    (∀ epso : Option (List ExtraPayment),
      ((buildPayments epso).drop 1).all
        (fun item => item.paymentType == PaymentType.ExtraPay) = true) ∧
    (∀ input : CalculatePayrollInput,
      (buildModel input).payments = buildPayments input.extraPayments) := by
  constructor
  · intro epso
    have hall : ∀ (l : List ExtraPayment) (i : ℕ),
        (buildExtraItems l i).all
          (fun item => item.paymentType == PaymentType.ExtraPay) = true := by
      intro l
      induction l with
      | nil => intro i; rfl
      | cons x xs ih => intro i; simp [buildExtraItems, ih]
    match epso with
    | none => rfl
    | some eps =>
        unfold buildPayments
        by_cases h : eps.length > 0
        · simp only [if_pos h, List.drop_succ_cons, List.drop_zero]
          exact hall eps 0
        · simp [if_neg h]
  · intro input; rfl

/-- C3 counterexample: with no extra payments the payments list is the
base line alone, and its amount is the constant `31`, not left unset. -/
theorem claim3_counterexample :
    ¬ ((buildPayments none).map (fun item => item.paymentAmount) = [none]) := by
  decide

/-- C3 as amended: the payments list begins with exactly one base line of
category `RegularPayment`, ref `"1"`, whose amount is the constant `31`
(not unset), followed by one line per extra payment at 0-based index `i`
with ref `extra_<i+2>` in input order, whose amount interpretation is
`Net` exactly when the payment's type is `Net` and `Gross` otherwise. -/
theorem claim3_payment_lines (eps : List ExtraPayment) :
    (buildPayments (some eps)).length = eps.length + 1 ∧
    (buildPayments (some eps)).head? = some basePaymentItem ∧
    basePaymentItem.paymentAmount = some 31 ∧
    basePaymentItem.paymentType = PaymentType.RegularPayment ∧
    basePaymentItem.paymentRef = "1" ∧
    ∀ i ex, eps.get? i = some ex →
      (buildPayments (some eps)).get? (i + 1) =
        some { paymentAmount := some ex.amount
               paymentName := ex.name
               paymentType := PaymentType.ExtraPay
               paymentRef := "extra_" ++ toString (i + 2)
               calculationType :=
                 some (if ex.type = CalculationType.Net
                   then CalculationType.Net else CalculationType.Gross) } := by
  refine ⟨?_, ?_, rfl, rfl, rfl, ?_⟩
  · cases eps with
    | nil => rfl
    | cons x xs =>
        simp [buildPayments, buildExtraItems, buildExtraItems_length]
  · cases eps with
    | nil => rfl
    | cons x xs => simp [buildPayments]
  · intro i ex hex
    cases eps with
    | nil => simp at hex
    | cons x xs =>
        have hpos : (x :: xs).length > 0 := by simp
        unfold buildPayments
        simp only [if_pos hpos, List.get?]
        rw [buildExtraItems_get? (x :: xs) i 0, hex]
        simp

/-- helper for C6: the bracket-override field of the scenario diff,
case-split closed form. -/
theorem applyScenario_incomeTaxLimits (d : DefaultParamsResult)
    (s : ScenarioConfig) :
    (applyScenario d s).incomeTaxLimits =
      match s.customTaxBrackets with
      | some brackets => some brackets
      | none =>
          match s.taxLimitIncreasePercent with
          | some pct =>
              some (d.incomeTaxBrackets.map (fun bracket =>
                { limit :=
                    if bracket.limit = maxSafeInteger then bracket.limit
                    else ((jsRound (bracket.limit * (1 + pct / 100)) : ℤ) : ℚ)
                  rate := bracket.rate }))
          | none => none := by
  rcases s with ⟨nm, sr, mw, tl, sl, cb⟩
  cases mw <;> cases sl <;> cases cb <;> cases tl <;> rfl

/-- C6: with `taxLimitIncreasePercent = p` and no custom brackets, every
bracket whose limit is not the `Number.MAX_SAFE_INTEGER` sentinel is
mapped to `round(limit * (1 + p/100))` with its rate unchanged and the
sentinel bracket is left untouched; when `customTaxBrackets` is supplied
it is used verbatim and the percent increase is ignored. -/
theorem claim6_applyScenario_brackets (d : DefaultParamsResult)
    (s : ScenarioConfig) :
    (∀ p : ℚ, s.customTaxBrackets = none →
      s.taxLimitIncreasePercent = some p →
      (applyScenario d s).incomeTaxLimits =
        some (d.incomeTaxBrackets.map (fun bracket =>
          { limit :=
              if bracket.limit = maxSafeInteger then bracket.limit
              else ((jsRound (bracket.limit * (1 + p / 100)) : ℤ) : ℚ)
            rate := bracket.rate }))) ∧
    (∀ brackets, s.customTaxBrackets = some brackets →
      (applyScenario d s).incomeTaxLimits = some brackets) := by
  constructor
  · intro p hcb htl
    rw [applyScenario_incomeTaxLimits, hcb, htl]
  · intro brackets hcb
    rw [applyScenario_incomeTaxLimits, hcb]

/-- witness for C6, on the real 2025 defaults with a 10 percent increase:
all four finite limits scale and round, the sentinel stays. -/
theorem claim6_witness :
    ({ taxLimitIncreasePercent := some 10 } : ScenarioConfig).customTaxBrackets
        = none ∧
    (applyScenario DEFAULT_PARAMS_2025
        { taxLimitIncreasePercent := some 10 }).incomeTaxLimits =
      some [ { limit := 173800, rate := 0.15 },
             { limit := 363000, rate := 0.2 },
             { limit := 1320000, rate := 0.27 },
             { limit := 4730000, rate := 0.35 },
             { limit := maxSafeInteger, rate := 0.4 } ] := by
  refine ⟨rfl, ?_⟩
  rw [(claim6_applyScenario_brackets DEFAULT_PARAMS_2025
    { taxLimitIncreasePercent := some 10 }).1 10 rfl rfl]
  simp only [DEFAULT_PARAMS_2025, List.map, Option.some.injEq,
    List.cons.injEq, CustomBracket.mk.injEq, and_true, true_and]
  and_intros <;> with_unfolding_all rfl

theorem simEmpRun_ok (e : Engine) (f : WageCalculationModel → Payroll)
    (hf : ∀ m, (e m).payrolls = some [f m]) (inp : SimulateBudgetInput)
    (cp : CustomParams) (aw : ℚ) (emp : SimEmployee) :
    ∀ (n i : ℕ) (acc : SimAcc), ∃ acc',
      simEmpRun e inp cp aw emp i n acc =
        (Except.ok acc', (List.range' i n).map (simReq inp cp aw emp)) ∧
      acc'.empPeriods = acc.empPeriods ++ (List.range' i n).map
        (fun k => payrollToPeriod (f (simReq inp cp aw emp k))) ∧
      acc'.empTotalCost = acc.empTotalCost + ((List.range' i n).map
        (fun k => (f (simReq inp cp aw emp k)).totalCost)).sum ∧
      acc'.empTotalNet = acc.empTotalNet + ((List.range' i n).map
        (fun k => (f (simReq inp cp aw emp k)).payrollResult.totalNet)).sum ∧
      acc'.empTotalGross = acc.empTotalGross + ((List.range' i n).map
        (fun k => (f (simReq inp cp aw emp k)).payrollResult.totalGross)).sum := by
  intro n
  induction n with
  | zero =>
      intro i acc
      exact ⟨acc, by simp [simEmpRun], by simp, by simp, by simp, by simp⟩
  | succ n ih =>
      intro i acc
      have hstep : simEmpStep e inp cp aw emp i acc =
          (Except.ok
            { cumulativeIncomeTaxBase := none
              cumulativeMinWageIncomeTaxBase := none
              transferredSSIBase1 := none
              transferredSSIBase2 := none
              empTotalCost :=
                acc.empTotalCost + (f (simReq inp cp aw emp i)).totalCost
              empTotalNet :=
                acc.empTotalNet +
                  (f (simReq inp cp aw emp i)).payrollResult.totalNet
              empTotalGross :=
                acc.empTotalGross +
                  (f (simReq inp cp aw emp i)).payrollResult.totalGross
              empPeriods := acc.empPeriods ++
                [payrollToPeriod (f (simReq inp cp aw emp i))] },
           [simReq inp cp aw emp i]) := by
        simp only [simEmpStep, calculatePayroll, buildModel_simPeriodInput, hf,
          List.map_cons, List.map_nil, List.sum_cons, List.sum_nil, add_zero]
        rfl
      obtain ⟨acc', heq, hper, hc, hn, hg⟩ := ih (i + 1)
        { cumulativeIncomeTaxBase := none
          cumulativeMinWageIncomeTaxBase := none
          transferredSSIBase1 := none
          transferredSSIBase2 := none
          empTotalCost :=
            acc.empTotalCost + (f (simReq inp cp aw emp i)).totalCost
          empTotalNet :=
            acc.empTotalNet + (f (simReq inp cp aw emp i)).payrollResult.totalNet
          empTotalGross :=
            acc.empTotalGross +
              (f (simReq inp cp aw emp i)).payrollResult.totalGross
          empPeriods := acc.empPeriods ++
            [payrollToPeriod (f (simReq inp cp aw emp i))] }
      refine ⟨acc', ?_, ?_, ?_, ?_, ?_⟩
      · rw [simEmpRun, hstep]
        simp [heq, List.range'_succ]
      · rw [hper, List.range'_succ]
        simp [List.append_assoc]
      · rw [hc, List.range'_succ]
        simp [add_assoc]
      · rw [hn, List.range'_succ]
        simp [add_assoc]
      · rw [hg, List.range'_succ]
        simp [add_assoc]

theorem simEmployee_ok (e : Engine) (f : WageCalculationModel → Payroll)
    (hf : ∀ m, (e m).payrolls = some [f m]) (inp : SimulateBudgetInput)
    (cp : CustomParams) (emp : SimEmployee) :
    simEmployee e inp cp emp =
      (Except.ok (simEmpPure f inp cp emp),
       (List.range inp.periodCount).map
         (simReq inp cp (simAdjustedWage inp emp) emp)) := by
  obtain ⟨acc', heq, hper, hc, hn, hg⟩ :=
    simEmpRun_ok e f hf inp cp (simAdjustedWage inp emp) emp inp.periodCount 0
      simAccInit
  simp only [simEmployee]
  rw [show applyRaise emp.wage inp.scenario.salaryRaisePercent =
        simAdjustedWage inp emp from rfl, heq]
  simp [simEmpPure, hper, hc, hn, hg, simAccInit, List.range_eq_range',
    List.map_map, Function.comp]
  exact ⟨rfl, rfl, rfl⟩

theorem simEmployeesLoop_ok (e : Engine) (f : WageCalculationModel → Payroll)
    (hf : ∀ m, (e m).payrolls = some [f m]) (inp : SimulateBudgetInput)
    (cp : CustomParams) :
    ∀ (emps : List SimEmployee) (t : ℚ × ℚ × ℚ), ∃ totals,
      simEmployeesLoop e inp cp emps t =
        (Except.ok (totals, emps.map (simEmpPure f inp cp)),
         emps.flatMap (fun emp => (List.range inp.periodCount).map
           (simReq inp cp (simAdjustedWage inp emp) emp))) := by
  intro emps
  induction emps with
  | nil =>
      intro t
      exact ⟨t, by simp [simEmployeesLoop]⟩
  | cons emp rest ih =>
      rintro ⟨tc, tn, tg⟩
      obtain ⟨totals, hrest⟩ := ih
        (tc + (simEmpPure f inp cp emp).yearlyCost,
         tn + (simEmpPure f inp cp emp).yearlyNet,
         tg + (simEmpPure f inp cp emp).yearlyGross)
      refine ⟨totals, ?_⟩
      rw [simEmployeesLoop, simEmployee_ok e f hf inp cp emp]
      simp [hrest]

theorem simulateBudget_ok (e : Engine) (f : WageCalculationModel → Payroll)
    (hf : ∀ m, (e m).payrolls = some [f m]) (inp : SimulateBudgetInput) :
    ∃ r, simulateBudget e inp = (Except.ok r, simBudgetTrace inp) ∧
      r.employees =
        inp.employees.map (simEmpPure f inp (simCustomParams inp)) := by
  obtain ⟨⟨tc, tn, tg⟩, hloop⟩ := simEmployeesLoop_ok e f hf inp
    (simCustomParams inp) inp.employees (0, 0, 0)
  simp only [simulateBudget]
  rw [show applyScenario (getDefaultParams { year := inp.year }) inp.scenario =
        simCustomParams inp from rfl, hloop]
  exact ⟨_, rfl, rfl⟩

/-- C2 counterexample: `calculate_payroll` with `periodCount = 2` makes
exactly one engine call, and that single request carries `periodCount =
2`, not one month — the claim's "exactly N invocations of one month each"
fails at N = 2. -/
theorem claim2_counterexample :
    (calculatePayroll noneEngine claim2CexInput).2.map
        (fun m => m.periodCount) = [2] ∧
    ¬ ((calculatePayroll noneEngine claim2CexInput).2.length = 2) := by
  rw [calculatePayroll_trace]
  exact ⟨rfl, by simp⟩

/-- C2 as amended: `calculatePayroll` always makes exactly one engine
call, whose request carries the input's whole `periodCount` (default 1);
`simulateBudget` over `periodCount` months makes exactly `employees ×
periodCount` calls, one per (employee, period index), each request
carrying `periodCount = 1` (a single month). -/
theorem claim2_engine_calls :
    (∀ (e : Engine) (input : CalculatePayrollInput),
      (calculatePayroll e input).2 = [buildModel input] ∧
      (buildModel input).periodCount = input.periodCount.getD 1) ∧
    (∀ (e : Engine) (f : WageCalculationModel → Payroll),
      (∀ m, (e m).payrolls = some [f m]) →
      ∀ inp : SimulateBudgetInput,
        (simulateBudget e inp).2.length =
          inp.employees.length * inp.periodCount ∧
        ∀ m ∈ (simulateBudget e inp).2, m.periodCount = 1) := by
  constructor
  · exact fun e input => ⟨calculatePayroll_trace e input, rfl⟩
  · intro e f hf inp
    obtain ⟨r, heq, -⟩ := simulateBudget_ok e f hf inp
    have htr : (simulateBudget e inp).2 = simBudgetTrace inp := by rw [heq]
    rw [htr]
    constructor
    · simp only [simBudgetTrace, List.length_flatMap, Function.comp_def,
        List.length_map, List.length_range, List.map_const',
        List.sum_replicate, smul_eq_mul]
    · intro m hm
      rw [simBudgetTrace, List.mem_flatMap] at hm
      obtain ⟨emp, hemp, hm'⟩ := hm
      rw [List.mem_map] at hm'
      obtain ⟨k, hk, rfl⟩ := hm'
      rfl

/-- witness for C2: the three-month one-employee run makes exactly three
single-month engine calls. -/
theorem claim2_witness :
    (simulateBudget oneEngine claim2WitnessInput).2.length =
      claim2WitnessInput.employees.length * claim2WitnessInput.periodCount ∧
    ∀ m ∈ (simulateBudget oneEngine claim2WitnessInput).2,
      m.periodCount = 1 :=
  claim2_engine_calls.2 oneEngine (fun _ => onePayroll) (fun _ => rfl)
    claim2WitnessInput

/-- C5: in a successful simulation run the engine request sequence is
exactly `simBudgetTrace`; the payment lines of the request for period `i`
are the base line followed by exactly the employee's pay events whose
(year, month) equal that period's computed calendar date, in input order;
and distinct period indices compute distinct calendar dates, so a pay
event scoped to another month appears in no other period's call. -/
theorem claim5_pay_event_scoping (e : Engine)
    (f : WageCalculationModel → Payroll)
    (hf : ∀ m, (e m).payrolls = some [f m]) (inp : SimulateBudgetInput) :
    (simulateBudget e inp).2 = simBudgetTrace inp ∧
    (∀ (cp : CustomParams) (aw : ℚ) (emp : SimEmployee) (i : ℕ),
      (simReq inp cp aw emp i).payments =
        basePaymentItem ::
          buildExtraItems
            ((periodPayEvents emp (jsDateYearMonth inp.year i).1
              (jsDateYearMonth inp.year i).2).map payEventToExtra) 0) ∧
    (∀ i j : ℕ, i ≠ j →
      jsDateYearMonth inp.year i ≠ jsDateYearMonth inp.year j) := by
  refine ⟨?_, ?_, ?_⟩
  · obtain ⟨r, heq, -⟩ := simulateBudget_ok e f hf inp
    rw [heq]
  · intro cp aw emp i
    show buildPayments (if ((periodPayEvents emp (jsDateYearMonth inp.year i).1
        (jsDateYearMonth inp.year i).2).map payEventToExtra).length > 0
      then some ((periodPayEvents emp (jsDateYearMonth inp.year i).1
        (jsDateYearMonth inp.year i).2).map payEventToExtra)
      else none) = _
    cases hl : (periodPayEvents emp (jsDateYearMonth inp.year i).1
        (jsDateYearMonth inp.year i).2).map payEventToExtra with
    | nil => simp [buildPayments, buildExtraItems]
    | cons x xs => simp [buildPayments]
  · intro i j hij h
    simp only [jsDateYearMonth, Prod.mk.injEq] at h
    generalize (if 0 ≤ inp.year ∧ inp.year ≤ 99
      then inp.year + 1900 else inp.year) = b at h
    omega

/-- witness for C5: the two-month run over the pay-event employee sends
exactly the trace of per-period requests, the period-0 request carrying
the two January events and the period-1 request the February event. -/
theorem claim5_witness :
    (simulateBudget oneEngine claim5WitnessInput).2 =
      simBudgetTrace claim5WitnessInput ∧
    (∀ (cp : CustomParams) (aw : ℚ) (emp : SimEmployee) (i : ℕ),
      (simReq claim5WitnessInput cp aw emp i).payments =
        basePaymentItem ::
          buildExtraItems
            ((periodPayEvents emp
              (jsDateYearMonth claim5WitnessInput.year i).1
              (jsDateYearMonth claim5WitnessInput.year i).2).map
                payEventToExtra) 0) ∧
    (∀ i j : ℕ, i ≠ j →
      jsDateYearMonth claim5WitnessInput.year i ≠
        jsDateYearMonth claim5WitnessInput.year j) :=
  claim5_pay_event_scoping oneEngine (fun _ => onePayroll) (fun _ => rfl)
    claim5WitnessInput

/-- C4 counterexample: a simulateBudget run starting in year 50 computes
its period date through JavaScript `Date`, which remaps year 50 to 1950;
with a faithful engine echoing the request's `calcDate`, the returned
period is (1950, 1), not the claim's calendar result (50, 1). -/
theorem claim4_counterexample :
    (simulateBudget claim4CexEngine claim4CexInput).2.map
        (fun m => m.calcDate) = ["1950-01-01"] ∧
    (match (simulateBudget claim4CexEngine claim4CexInput).1 with
      | Except.ok r =>
          r.employees.map (fun er => er.periods.map
            (fun p => (p.year, p.month)))
      | Except.error _ => []) = [[((1950 : ℤ), (1 : ℤ))]] ∧
    ¬ (((1950 : ℤ), (1 : ℤ)) = ((50 : ℤ), (1 : ℤ))) := by
  refine ⟨?_, ?_, by decide⟩
  · with_unfolding_all rfl
  · with_unfolding_all rfl

/-- C4 as amended: for a simulateBudget run against an engine that
answers each call with one payroll dated as requested, every employee's
period sequence has length exactly `periodCount` and the (year, month) of
the period at index `i` is `jsDateYearMonth startYear i` — which, whenever
the start year is outside 0..99, is exactly the calendar date obtained by
adding `i` months to (startYear, January), with month overflow normalized
into year rollover; for a start year in 0..99, JavaScript `Date`
substitutes `1900 + startYear`.  (`simulateBudget` has no start-month
input: every run starts in January.) -/
theorem claim4_period_dates (e : Engine) (f : WageCalculationModel → Payroll)
    (inp : SimulateBudgetInput)
    (hf : ∀ m, (e m).payrolls = some [f m])
    (hecho : ∀ emp ∈ inp.employees, ∀ i < inp.periodCount,
      (f (simReq inp (simCustomParams inp) (simAdjustedWage inp emp)
          emp i)).year = (jsDateYearMonth inp.year i).1 ∧
      (f (simReq inp (simCustomParams inp) (simAdjustedWage inp emp)
          emp i)).month = (jsDateYearMonth inp.year i).2) :
    ∃ r, (simulateBudget e inp).1 = Except.ok r ∧
      r.employees.length = inp.employees.length ∧
      (∀ er ∈ r.employees, er.periods.length = inp.periodCount) ∧
      (∀ er ∈ r.employees, ∀ (i : ℕ) (pr : PeriodResult),
        er.periods.get? i = some pr →
          pr.year = (jsDateYearMonth inp.year i).1 ∧
          pr.month = (jsDateYearMonth inp.year i).2) ∧
      (¬ (0 ≤ inp.year ∧ inp.year ≤ 99) → ∀ i : ℕ,
        jsDateYearMonth inp.year i = addMonths inp.year 1 i) := by
  obtain ⟨r, heq, hemps⟩ := simulateBudget_ok e f hf inp
  refine ⟨r, by rw [heq], ?_, ?_, ?_, ?_⟩
  · rw [hemps]; simp
  · intro er her
    rw [hemps, List.mem_map] at her
    obtain ⟨emp, hemp, rfl⟩ := her
    simp [simEmpPure]
  · intro er her i pr hpr
    rw [hemps, List.mem_map] at her
    obtain ⟨emp, hemp, rfl⟩ := her
    by_cases hi : i < inp.periodCount
    · simp only [simEmpPure, List.get?_map, List.get?_range hi,
        Option.map_some'] at hpr
      obtain rfl : payrollToPeriod (f (simReq inp (simCustomParams inp)
          (simAdjustedWage inp emp) emp i)) = pr := by
        simpa using hpr
      obtain ⟨hy, hm⟩ := hecho emp hemp i hi
      exact ⟨hy, hm⟩
    · exfalso
      have hlen : ((simEmpPure f inp (simCustomParams inp) emp).periods).length
          = inp.periodCount := by simp [simEmpPure]
      have : ((simEmpPure f inp (simCustomParams inp) emp).periods).get? i
          = none := by
        rw [List.get?_eq_none]
        omega
      rw [this] at hpr
      cases hpr
  · intro hq i
    simp only [jsDateYearMonth, addMonths, if_neg hq, Prod.mk.injEq]
    constructor <;> omega

/-- witness for C4: the two-month 2025 run against the date-echoing
engine returns periods dated (2025, 1) and (2025, 2). -/
theorem claim4_witness :
    ∃ r, (simulateBudget claim4WitnessEngine claim4WitnessInput).1 =
        Except.ok r ∧
      r.employees.length = claim4WitnessInput.employees.length ∧
      (∀ er ∈ r.employees,
        er.periods.length = claim4WitnessInput.periodCount) ∧
      (∀ er ∈ r.employees, ∀ (i : ℕ) (pr : PeriodResult),
        er.periods.get? i = some pr →
          pr.year = (jsDateYearMonth claim4WitnessInput.year i).1 ∧
          pr.month = (jsDateYearMonth claim4WitnessInput.year i).2) ∧
      (¬ (0 ≤ claim4WitnessInput.year ∧ claim4WitnessInput.year ≤ 99) →
        ∀ i : ℕ, jsDateYearMonth claim4WitnessInput.year i =
          addMonths claim4WitnessInput.year 1 i) :=
  claim4_period_dates claim4WitnessEngine claim4WitnessF claim4WitnessInput
    (fun _ => rfl) (by decide)

theorem simEmpRun_fail (e : Engine) (inp : SimulateBudgetInput)
    (cp : CustomParams) (aw : ℚ) (emp : SimEmployee) :
    ∀ (k n i : ℕ) (acc : SimAcc), k < n →
      (∀ j < k, ∃ p, (e (simReq inp cp aw emp (i + j))).payrolls = some [p]) →
      (e (simReq inp cp aw emp (i + k))).payrolls = none →
      simEmpRun e inp cp aw emp i n acc =
        (Except.error RunError.missingPayrolls,
         (List.range' i (k + 1)).map (simReq inp cp aw emp)) := by
  intro k
  induction k with
  | zero =>
      intro n i acc hk _ hbad
      obtain ⟨n', rfl⟩ : ∃ n', n = n' + 1 := ⟨n - 1, by omega⟩
      simp only [Nat.add_zero] at hbad
      rw [simEmpRun]
      have hstep : simEmpStep e inp cp aw emp i acc =
          (Except.error RunError.missingPayrolls, [simReq inp cp aw emp i]) := by
        simp only [simEmpStep, calculatePayroll, buildModel_simPeriodInput,
          hbad]
      rw [hstep]
      simp [List.range'_one]
  | succ k ih =>
      intro n i acc hk hgood hbad
      obtain ⟨n', rfl⟩ : ∃ n', n = n' + 1 := ⟨n - 1, by omega⟩
      obtain ⟨p0, hp0⟩ := hgood 0 (Nat.succ_pos k)
      simp only [Nat.add_zero] at hp0
      rw [simEmpRun]
      have hstep : simEmpStep e inp cp aw emp i acc =
          (Except.ok
            { cumulativeIncomeTaxBase := none
              cumulativeMinWageIncomeTaxBase := none
              transferredSSIBase1 := none
              transferredSSIBase2 := none
              empTotalCost := acc.empTotalCost + p0.totalCost
              empTotalNet := acc.empTotalNet + p0.payrollResult.totalNet
              empTotalGross := acc.empTotalGross + p0.payrollResult.totalGross
              empPeriods := acc.empPeriods ++ [payrollToPeriod p0] },
           [simReq inp cp aw emp i]) := by
        simp only [simEmpStep, calculatePayroll, buildModel_simPeriodInput,
          hp0, List.map_cons, List.map_nil, List.sum_cons, List.sum_nil,
          add_zero]
        rfl
      rw [hstep]
      have hgood' : ∀ j < k, ∃ p,
          (e (simReq inp cp aw emp ((i + 1) + j))).payrolls = some [p] := by
        intro j hj
        have := hgood (j + 1) (by omega)
        rwa [show i + (j + 1) = (i + 1) + j by omega] at this
      have hbad' : (e (simReq inp cp aw emp ((i + 1) + k))).payrolls = none := by
        rwa [show i + (k + 1) = (i + 1) + k by omega] at hbad
      have hrest := ih n' (i + 1)
        { cumulativeIncomeTaxBase := none
          cumulativeMinWageIncomeTaxBase := none
          transferredSSIBase1 := none
          transferredSSIBase2 := none
          empTotalCost := acc.empTotalCost + p0.totalCost
          empTotalNet := acc.empTotalNet + p0.payrollResult.totalNet
          empTotalGross := acc.empTotalGross + p0.payrollResult.totalGross
          empPeriods := acc.empPeriods ++ [payrollToPeriod p0] }
        (by omega) hgood' hbad'
      simp [hrest, List.range'_succ]

/-- C8: when the engine answers period `k` of a single-employee
multi-period run without the expected payload (after well-formed answers
for periods `0..k-1`), the whole run returns the missing-payload error —
the already-computed prior periods are discarded, the caller sees no
partial employee result — and exactly `k + 1` requests were sent: no
period after `k` is attempted. -/
theorem claim8_engine_error_aborts (e : Engine) (inp : SimulateBudgetInput)
    (emp : SimEmployee) (k : ℕ)
    (hemp : inp.employees = [emp]) (hk : k < inp.periodCount)
    (hgood : ∀ j < k, ∃ p,
      (e (simReq inp (simCustomParams inp) (simAdjustedWage inp emp)
        emp j)).payrolls = some [p])
    (hbad : (e (simReq inp (simCustomParams inp) (simAdjustedWage inp emp)
      emp k)).payrolls = none) :
    (simulateBudget e inp).1 = Except.error RunError.missingPayrolls ∧
    (simulateBudget e inp).2.length = k + 1 := by
  have hrun := simEmpRun_fail e inp (simCustomParams inp)
    (simAdjustedWage inp emp) emp k inp.periodCount 0 simAccInit hk
    (by simpa using hgood) (by simpa using hbad)
  have hememp : simEmployee e inp (simCustomParams inp) emp =
      (Except.error RunError.missingPayrolls,
       (List.range' 0 (k + 1)).map
         (simReq inp (simCustomParams inp) (simAdjustedWage inp emp) emp)) := by
    simp only [simEmployee]
    rw [show applyRaise emp.wage inp.scenario.salaryRaisePercent =
          simAdjustedWage inp emp from rfl, hrun]
  simp only [simulateBudget]
  rw [show applyScenario (getDefaultParams { year := inp.year }) inp.scenario =
        simCustomParams inp from rfl, hemp, simEmployeesLoop, hememp]
  simp

/-- witness for C8: over three months with the engine dropping the
payload at the February call (period index 1), the run errors and only
two requests were sent. -/
theorem claim8_witness :
    (simulateBudget claim8WitnessEngine claim8WitnessInput).1 =
      Except.error RunError.missingPayrolls ∧
    (simulateBudget claim8WitnessEngine claim8WitnessInput).2.length =
      1 + 1 :=
  claim8_engine_error_aborts claim8WitnessEngine claim8WitnessInput empA 1
    rfl (by decide)
    (fun j hj => by
      interval_cases j
      exact ⟨onePayroll, by decide⟩)
    (by decide)

theorem compareLoop_length (e : Engine) (emps : List SimEmployee) (y : ℤ)
    (n : ℕ) :
    ∀ (ss : List ScenarioConfig) (idx : ℕ) (rs : List ScenarioRun),
      (compareLoop e emps y n ss idx).1 = Except.ok rs →
      rs.length = ss.length := by
  intro ss
  induction ss with
  | nil =>
      intro idx rs h
      simp only [compareLoop] at h
      cases h
      rfl
  | cons s rest ih =>
      intro idx rs h
      rw [compareLoop] at h
      rcases hsb : simulateBudget e
          { employees := emps, year := y, periodCount := n,
            scenario := s } with ⟨res, tr⟩
      rw [hsb] at h
      cases res with
      | error err => simp at h
      | ok r =>
          rcases hcl : compareLoop e emps y n rest (idx + 1) with ⟨res', tr'⟩
          rw [hcl] at h
          cases res' with
          | error err => simp at h
          | ok runs =>
              simp only [Except.ok.injEq] at h
              have := ih (idx + 1) runs (by rw [hcl])
              rw [← h]
              simp [this]

theorem compareScenarios_ok_inv (e : Engine) (input : CompareScenariosInput)
    (r : CompareScenariosResult)
    (h : (compareScenarios e input).1 = Except.ok r) :
    ∃ r0 rs,
      (compareLoop e input.employees input.year input.periodCount
        input.scenarios 0).1 = Except.ok (r0 :: rs) ∧
      r.baselineCost = r0.totalCost ∧
      r.comparison = (r0 :: rs).map (fun x =>
        { scenarioName := x.name
          totalCost := x.totalCost
          costDifference := x.totalCost - r0.totalCost
          percentChange :=
            if r0.totalCost > 0
            then (x.totalCost - r0.totalCost) / r0.totalCost * 100
            else 0 }) := by
  rw [compareScenarios] at h
  by_cases h0 : input.scenarios.length = 0
  · rw [if_pos h0] at h
    cases h
  · rw [if_neg h0] at h
    rcases hcl : compareLoop e input.employees input.year input.periodCount
        input.scenarios 0 with ⟨res, tr⟩
    rw [hcl] at h
    cases res with
    | error err => cases h
    | ok results =>
        cases results with
        | nil => cases h
        | cons r0 rs =>
            refine ⟨r0, rs, rfl, ?_, ?_⟩ <;>
              simp only [Except.ok.injEq] at h <;> rw [← h]


/-- C7 counterexample: with an engine reporting cost `wage - 300`, the
baseline scenario costs -200 and the raise scenario -100; the code
reports `percentChange = 0` for the second scenario because the guard is
`baselineCost > 0`, while the claim's formula demands
`100 / (-200) * 100 = -50` whenever the baseline is nonzero. -/
theorem claim7_counterexample :
    (match (compareScenarios claim7CexEngine claim7CexInput).1 with
      | Except.ok r =>
          some (r.baselineCost, r.comparison.map
            (fun c => (c.totalCost, c.costDifference, c.percentChange)))
      | Except.error _ => none) =
      some ((-200 : ℚ),
        [((-200 : ℚ), (0 : ℚ), (0 : ℚ)), ((-100 : ℚ), (100 : ℚ), (0 : ℚ))]) ∧
    ¬ ((100 : ℚ) / (-200) * 100 = 0) := by
  constructor
  · with_unfolding_all rfl
  · norm_num

/-- C7 as amended: in every successful comparison the baseline cost is
the first scenario's total cost, each entry's `costDifference` is its
total cost minus the baseline, and `percentChange` is
`costDifference / baselineCost * 100` when the baseline cost is strictly
positive and `0` otherwise (in particular `0` for a zero — or negative —
baseline, so no division by zero occurs, and the first entry always has
`costDifference = 0` and `percentChange = 0`). -/
theorem claim7_comparison_deltas (e : Engine)
    (input : CompareScenariosInput) (r : CompareScenariosResult)
    (h : (compareScenarios e input).1 = Except.ok r) :
    r.comparison.length = input.scenarios.length ∧
    (∀ c ∈ r.comparison,
      c.costDifference = c.totalCost - r.baselineCost ∧
      c.percentChange =
        if r.baselineCost > 0
        then (c.totalCost - r.baselineCost) / r.baselineCost * 100
        else 0) ∧
    (∀ c, r.comparison.head? = some c →
      c.totalCost = r.baselineCost ∧ c.costDifference = 0 ∧
      c.percentChange = 0) := by
  obtain ⟨r0, rs, hloop, hbase, hcomp⟩ := compareScenarios_ok_inv e input r h
  refine ⟨?_, ?_, ?_⟩
  · rw [hcomp, List.length_map]
    exact compareLoop_length e input.employees input.year input.periodCount
      input.scenarios 0 (r0 :: rs) hloop
  · intro c hc
    rw [hcomp, List.mem_map] at hc
    obtain ⟨x, hx, rfl⟩ := hc
    rw [hbase]
    exact ⟨rfl, rfl⟩
  · intro c hc
    rw [hcomp] at hc
    simp only [List.map_cons, List.head?_cons, Option.some.injEq] at hc
    rw [← hc, hbase]
    refine ⟨rfl, by simp, ?_⟩
    by_cases hpos : r0.totalCost > 0
    · simp [hpos]
    · simp [hpos]

/-- witness for C7: the zero-employee single-scenario comparison has
baseline cost 0 and reports `percentChange = 0` (not NaN or infinity). -/
theorem claim7_witness :
    claim7WitnessResult.comparison.length =
      claim7WitnessInput.scenarios.length ∧
    (∀ c ∈ claim7WitnessResult.comparison,
      c.costDifference = c.totalCost - claim7WitnessResult.baselineCost ∧
      c.percentChange =
        if claim7WitnessResult.baselineCost > 0
        then (c.totalCost - claim7WitnessResult.baselineCost) /
          claim7WitnessResult.baselineCost * 100
        else 0) ∧
    (∀ c, claim7WitnessResult.comparison.head? = some c →
      c.totalCost = claim7WitnessResult.baselineCost ∧
      c.costDifference = 0 ∧ c.percentChange = 0) :=
  claim7_comparison_deltas noneEngine claim7WitnessInput claim7WitnessResult
    (by with_unfolding_all rfl)

/-- C1 (evaluation of the code at the failing input): over two periods
with the engine reporting `totalIncomeTaxBase = 1000` every month, both
engine requests carry `cumulativeIncomeTaxBase = 0` — under the spec's
threading rule the second request should carry `0 + 1000 = 1000` — and
the returned periods' cumulative fields are all absent (`none`):
`calculatePayroll` builds `PeriodResult`s without them and hard-codes `0`
into the engine model, so the loop's carry-forward reads fields that were
never set and the carried values never reach the engine. -/
theorem claim1_code_evaluation :
    (simulateBudget claim1Engine claim1Input).2.map
        (fun m => m.cumulativeIncomeTaxBase) = [0, 0] ∧
    (match (simulateBudget claim1Engine claim1Input).1 with
      | Except.ok r => r.employees.map (fun er =>
          er.periods.map (fun p => p.cumulativeIncomeTaxBase))
      | Except.error _ => []) = [[none, none]] ∧
    (∀ m, ((claim1Engine m).payrolls.getD []).map
        (fun p => p.payrollResult.totalIncomeTaxBase) = [1000]) ∧
    ¬ ((0 : ℚ) + 1000 = 0) := by
  refine ⟨?_, ?_, fun _ => rfl, by norm_num⟩
  · with_unfolding_all rfl
  · with_unfolding_all rfl

/-- witness for C3: on a two-payment list (one Gross, one Net), the line
at index 1 gets ref `extra_3`, category `ExtraPay`, and the `Net` amount
interpretation. -/
theorem claim3_witness :
    ([{ name := "Prim", amount := 100, type := CalculationType.Gross },
      { name := "Bonus", amount := 200, type := CalculationType.Net }] :
        List ExtraPayment).get? 1 =
      some { name := "Bonus", amount := 200, type := CalculationType.Net } ∧
    (buildPayments (some
      [{ name := "Prim", amount := 100, type := CalculationType.Gross },
       { name := "Bonus", amount := 200, type := CalculationType.Net }])).get? 2 =
      some { paymentAmount := some 200
             paymentName := "Bonus"
             paymentType := PaymentType.ExtraPay
             paymentRef := "extra_3"
             calculationType := some CalculationType.Net } := by
  refine ⟨rfl, ?_⟩
  have h := (claim3_payment_lines
    [{ name := "Prim", amount := 100, type := CalculationType.Gross },
     { name := "Bonus", amount := 200, type := CalculationType.Net }]).2.2.2.2.2
    1 { name := "Bonus", amount := 200, type := CalculationType.Net } rfl
  rw [h]
  with_unfolding_all rfl
